import Mathlib

set_option maxRecDepth 20000

/-!  Verification development for the mmdb-lookup-demo repository.

The TypeScript source (the MMDB helper module and the application module)
is shallow-embedded below: JavaScript 32-bit integer arithmetic is
modelled on `Nat` with explicit reduction modulo 2^32, JavaScript values
decoded from the MMDB file are modelled by the inductive type `Value`
(numbers are modelled as integers; none of the verified properties
depends on floating-point formatting), fallible reader calls are
modelled with `Except`, and `JSON.stringify` is modelled by the
executable serializer `stringify`.
-/

/-- JavaScript values as returned by the mmdb-lib reader (`Response`):
JSON-like data.  Numbers are modelled as integers. -/
inductive Value where
  | vnull : Value
  | num : Int → Value
  | str : String → Value
  | bool : Bool → Value
  | arr : List Value → Value
  | map : List (String × Value) → Value

mutual

/-- Serialization `JSON.stringify` on a decoded value (string escaping is not modelled;
every string examined in this development is escape-free). -/
def stringify : Value → String
  | .vnull => "null"
  | .num n => toString n
  | .str s => "\"" ++ s ++ "\""
  | .bool b => cond b "true" "false"
  | .arr xs => "[" ++ stringifyList xs ++ "]"
  | .map kvs => "\x7b" ++ stringifyKVs kvs ++ "\x7d"

/-- Comma-separated serialization of array elements. -/
def stringifyList : List Value → String
  | [] => ""
  | [x] => stringify x
  | x :: xs => stringify x ++ "," ++ stringifyList xs

/-- Comma-separated serialization of object entries. -/
def stringifyKVs : List (String × Value) → String
  | [] => ""
  | [kv] => "\"" ++ kv.1 ++ "\":" ++ stringify kv.2
  | kv :: kvs => "\"" ++ kv.1 ++ "\":" ++ stringify kv.2 ++ "," ++ stringifyKVs kvs

end

/-- Serialization `JSON.stringify` applied to a nullable reader result
(`JSON.stringify(null)` is the string `"null"`). -/
def stringifyOpt : Option Value → String
  | none => "null"
  | some v => stringify v

/-- JavaScript falsiness of a decoded value (`!x`): 0, the empty string,
`false` and `null` are falsy; arrays and objects are always truthy. -/
def isFalsy : Value → Bool
  | .vnull => true
  | .num n => n == 0
  | .str s => s == ""
  | .bool b => !b
  | .arr _ => false
  | .map _ => false

/-- Truthiness of a nullable reader result (`if (result)`). -/
def truthyOpt : Option Value → Bool
  | none => false
  | some v => !isFalsy v

/-- JavaScript property read on a decoded object (`result.k` /
`result["k"]`); `none` on non-objects and absent keys. -/
def getKey : Value → String → Option Value
  | .map kvs, k => List.lookup k kvs
  | _, _ => none

/-- JavaScript `"k" in result` on a decoded object. -/
def hasKey (v : Value) (k : String) : Bool :=
  (getKey v k).isSome

/-- Optional-chained path read (`data.a?.b?.c`). -/
def getIn (v : Value) : List String → Option Value
  | [] => some v
  | k :: ks =>
    match getKey v k with
    | none => none
    | some w => getIn w ks

/-! ### A small regular-expression engine

`isValidIP` in the source is defined by two anchored JavaScript regular
expressions.  They are transcribed construct-by-construct into the `RE`
syntax below and decided by a fuel-bounded backtracking matcher (the fuel
grows linearly with the subject length and is ample for every subject
examined: each matcher step either consumes structure of the expression
or of the subject). -/

/-- Regular-expression syntax: empty word, single-character class,
concatenation, alternation, and counted repetition `{m,n}` (`n = none`
meaning unbounded). -/
inductive RE where
  | eps : RE
  | cls : (Char → Bool) → RE
  | seq : RE → RE → RE
  | alt : RE → RE → RE
  | rep : Nat → Option Nat → RE → RE

/-- Backtracking matcher in continuation style: `matchRE fuel r cs k`
decides whether some split `cs = u ++ v` has `u` in the language of `r`
and `k v = true`. -/
def matchRE : Nat → RE → List Char → (List Char → Bool) → Bool
  | 0, _, _, _ => false
  | _ + 1, .eps, cs, k => k cs
  | _ + 1, .cls _, [], _ => false
  | _ + 1, .cls f, c :: cs, k => f c && k cs
  | fuel + 1, .seq a b, cs, k => matchRE fuel a cs (fun rest => matchRE fuel b rest k)
  | fuel + 1, .alt a b, cs, k => matchRE fuel a cs k || matchRE fuel b cs k
  | fuel + 1, .rep 0 none a, cs, k =>
    k cs || matchRE fuel a cs (fun rest => matchRE fuel (.rep 0 none a) rest k)
  | _ + 1, .rep 0 (some 0) _, cs, k => k cs
  | fuel + 1, .rep 0 (some (j + 1)) a, cs, k =>
    k cs || matchRE fuel a cs (fun rest => matchRE fuel (.rep 0 (some j) a) rest k)
  | fuel + 1, .rep (m + 1) n a, cs, k =>
    matchRE fuel a cs (fun rest => matchRE fuel (.rep m (n.map (fun j => j - 1)) a) rest k)

/-- Anchored whole-string match (`^...$`), with fuel linear in the
subject length. -/
def fullMatch (r : RE) (s : String) : Bool :=
  matchRE (5000 + 200 * s.length) r s.toList List.isEmpty

/-- Single literal character. -/
def chr (c : Char) : RE := .cls (fun x => x == c)

/-- Character range by code point. -/
def rng (a b : Char) : RE := .cls (fun x => a.toNat ≤ x.toNat && x.toNat ≤ b.toNat)

/-- Concatenation of a list of expressions. -/
def seqs : List RE → RE
  | [] => .eps
  | [r] => r
  | r :: rs => .seq r (seqs rs)

/-- Alternation of a list of expressions. -/
def alts : List RE → RE
  | [] => .eps
  | [r] => r
  | r :: rs => .alt r (alts rs)

/-- Optional occurrence `r?`. -/
def opt (r : RE) : RE := .rep 0 (some 1) r

/-- Literal string. -/
def lit (s : String) : RE := seqs (s.toList.map chr)

/-- Class `[0-9]`. -/
def reDigit : RE := rng '0' '9'

/-- Class `[0-9a-fA-F]`. -/
def reHex : RE :=
  .cls (fun x => ('0'.toNat ≤ x.toNat && x.toNat ≤ '9'.toNat)
    || ('a'.toNat ≤ x.toNat && x.toNat ≤ 'f'.toNat)
    || ('A'.toNat ≤ x.toNat && x.toNat ≤ 'F'.toNat))

/-- Class `[0-9a-zA-Z]`. -/
def reAlnum : RE :=
  .cls (fun x => ('0'.toNat ≤ x.toNat && x.toNat ≤ '9'.toNat)
    || ('a'.toNat ≤ x.toNat && x.toNat ≤ 'z'.toNat)
    || ('A'.toNat ≤ x.toNat && x.toNat ≤ 'Z'.toNat))

/-- One IPv4 octet of the source's IPv4 regex:
`25[0-5]|2[0-4][0-9]|[01]?[0-9][0-9]?`. -/
def ipv4Octet : RE :=
  alts [seqs [chr '2', chr '5', rng '0' '5'],
        seqs [chr '2', rng '0' '4', reDigit],
        seqs [opt (alts [chr '0', chr '1']), reDigit, opt reDigit]]

/-- The source's anchored IPv4 regex:
`^(?:(?:25[0-5]|2[0-4][0-9]|[01]?[0-9][0-9]?)\.){3}(?:...)$`. -/
def ipv4RE : RE :=
  .seq (.rep 3 (some 3) (.seq ipv4Octet (chr '.'))) ipv4Octet

/-- Repetition `[0-9a-fA-F]{1,4}` (one IPv6 hextet). -/
def h16 : RE := .rep 1 (some 4) reHex

/-- Group `[0-9a-fA-F]{1,4}:`. -/
def h16c : RE := .seq h16 (chr ':')

/-- Group `:[0-9a-fA-F]{1,4}`. -/
def ch16 : RE := .seq (chr ':') h16

/-- One dotted-quad octet as written inside the source's IPv6 regex:
`25[0-5]|(2[0-4]|1{0,1}[0-9]){0,1}[0-9]`. -/
def v4OctetIn6 : RE :=
  .alt (seqs [chr '2', chr '5', rng '0' '5'])
    (.seq (opt (.alt (.seq (chr '2') (rng '0' '4')) (.seq (opt (chr '1')) reDigit))) reDigit)

/-- Pattern `((oct)\.){3,3}(oct)` inside the source's IPv6 regex. -/
def v4Dotted : RE :=
  .seq (.rep 3 (some 3) (.seq v4OctetIn6 (chr '.'))) v4OctetIn6

/-- The source's anchored IPv6 regex, branch by branch. -/
def ipv6RE : RE :=
  alts
    [.seq (.rep 7 (some 7) h16c) h16,
     .seq (.rep 1 (some 7) h16c) (chr ':'),
     seqs [.rep 1 (some 6) h16c, chr ':', h16],
     .seq (.rep 1 (some 5) h16c) (.rep 1 (some 2) ch16),
     .seq (.rep 1 (some 4) h16c) (.rep 1 (some 3) ch16),
     .seq (.rep 1 (some 3) h16c) (.rep 1 (some 4) ch16),
     .seq (.rep 1 (some 2) h16c) (.rep 1 (some 5) ch16),
     seqs [h16, chr ':', .rep 1 (some 6) ch16],
     .seq (chr ':') (.alt (.rep 1 (some 7) ch16) (chr ':')),
     seqs [lit "fe80:", .rep 0 (some 4) (.seq (chr ':') (.rep 0 (some 4) reHex)),
           chr '%', .rep 1 none reAlnum],
     seqs [lit "::", opt (seqs [lit "ffff", opt (.seq (chr ':') (.rep 1 (some 4) (chr '0'))),
           chr ':']), v4Dotted],
     seqs [.rep 1 (some 4) h16c, chr ':', v4Dotted]]

/-- Validator `isValidIP` from the source: the query string matches the IPv4 regex
or the IPv6 regex. -/
def isValidIP (ip : String) : Bool :=
  fullMatch ipv4RE ip || fullMatch ipv6RE ip


/-! ### 32-bit integer model of the IPv4 arithmetic

JavaScript bitwise operators coerce their operands to 32-bit integers.
Every occurrence of an IPv4 address integer in the source flows only
into bitwise operators, `===` comparisons of such results, and the
unsigned rendering `(x >>> k) & 0xff`; all of these agree with plain
natural-number arithmetic modulo 2^32, which is how they are modelled
here. -/

/-- Behavior of `String.prototype.split` with a single-character separator, on the
character list: `"a::b" → ["a", "", "b"]`. -/
def splitChar (sep : Char) : List Char → List (List Char)
  | [] => [[]]
  | c :: cs =>
    match splitChar sep cs with
    | [] => if c == sep then [[], []] else [[c]]
    | g :: gs => if c == sep then [] :: g :: gs else (c :: g) :: gs

/-- Behavior of `s.split(sep)` for a one-character separator. -/
def jsSplit (s : String) (sep : Char) : List String :=
  (splitChar sep s.toList).map List.asString

/-- Behavior of `xs.join(sep)`. -/
def joinSep (sep : String) : List String → String
  | [] => ""
  | [x] => x
  | x :: xs => x ++ sep ++ joinSep sep xs

/-- Behavior of `Number(s)` on the decimal octet strings produced by splitting a
dotted quad. -/
def natOfString (s : String) : Nat :=
  s.toList.foldl (fun a c => a * 10 + (c.toNat - 48)) 0

/-- The value `(parts[0] << 24) + (parts[1] << 16) + (parts[2] << 8) + parts[3]`
for `parts = ip.split(".").map(Number)`, as the 32-bit residue of the
resulting JavaScript integer. -/
def jsIPv4Int (ip : String) : Nat :=
  let parts := (jsSplit ip '.').map natOfString
  (parts.getD 0 0 * 16777216 + parts.getD 1 0 * 65536 +
    parts.getD 2 0 * 256 + parts.getD 3 0) % 4294967296

/-- The mask `0xffffffff << (32 - p)` as a 32-bit residue: the network mask for
prefix length `p`. -/
def maskOf (p : Nat) : Nat :=
  (4294967295 <<< (32 - p)) % 4294967296

/-- Rendering `[(n >>> 24) & 0xff, (n >>> 16) & 0xff, (n >>> 8) & 0xff, n & 0xff].join(".")`. -/
def ipv4ToString (n : Nat) : String :=
  toString ((n >>> 24) &&& 255) ++ "." ++ toString ((n >>> 16) &&& 255) ++ "." ++
    toString ((n >>> 8) &&& 255) ++ "." ++ toString (n &&& 255)

/-! ### The loaded context and the lookup API -/

/-- The mmdb-lib reader's `get` method: a pure function of the query
string that either throws (message string) or returns a decoded value or
`null`.  The reader itself lives outside this repository; its observable
interface is all the source under verification uses. -/
def ReaderFn : Type := String → Except String (Option Value)

/-- An entry of the dataset catalog (`MMDBDataset` in the types module):
a name, a `type` discriminator (`"asn" | "city" | "country"`) and a URL. -/
structure MMDBDataset where
  name : String
  type : String
  url : String

/-- Structure `MMDBContext`: the dataset selected and the loaded reader, either of
which may still be `null`. -/
structure MMDBContext where
  dataset : Option MMDBDataset
  reader : Option ReaderFn

/-- The errors thrown by `lookupIP` / `findCIDRBlock`:
`"No dataset loaded"`, `"Invalid IP address format"`, and the rethrown
`"IP lookup failed: ..."` wrapper around a reader failure. -/
inductive MMDBError where
  | noDatasetLoaded : MMDBError
  | invalidIPFormat : MMDBError
  | lookupFailed : String → MMDBError
deriving DecidableEq

/-- Type guard `isAsnResponse`: the key `autonomous_system_number` is
present and its value is a number. -/
def isAsnResponse (result : Value) : Bool :=
  hasKey result "autonomous_system_number" &&
    (match getKey result "autonomous_system_number" with
     | some (.num _) => true
     | _ => false)

/-- Type guard `isCityResponse`: one of `city`, `location`, `postal`,
`subdivisions` is present. -/
def isCityResponse (result : Value) : Bool :=
  hasKey result "city" || hasKey result "location" ||
    hasKey result "postal" || hasKey result "subdivisions"

/-- Type guard `isCountryResponse`: `country` or `continent` is present. -/
def isCountryResponse (result : Value) : Bool :=
  hasKey result "country" || hasKey result "continent"

/-- Function `transformResult`: returns the decoded value unchanged when it
passes the guard of the selected dataset type (or the type is not one of
the three known ones), and otherwise substitutes the hard-coded fallback
record of that branch. -/
def transformResult (result : Value) (datasetType : String) : Value :=
  if datasetType == "asn" then
    if isAsnResponse result then result
    else .map [("autonomous_system_number", .num 0),
               ("autonomous_system_organization", .str "Unknown")]
  else if datasetType == "city" then
    if isCityResponse result then result else .map []
  else if datasetType == "country" then
    if isCountryResponse result then result else .map []
  else result

/-- Function `lookupIP`, in state-passing form: the pair of the call's outcome
and the context as it stands after the call.  The source only ever reads
`context`, so every branch returns the context it was given. -/
def lookupIPS (context : MMDBContext) (ip : String) :
    Except MMDBError (Option Value) × MMDBContext :=
  match context.dataset, context.reader with
  | some ds, some rd =>
    if !isValidIP ip then (.error .invalidIPFormat, context)
    else
      match rd ip with
      | .error e => (.error (.lookupFailed e), context)
      | .ok result =>
        if !truthyOpt result then (.ok none, context)
        else (.ok (result.map (fun r => transformResult r ds.type)), context)
  | _, _ => (.error .noDatasetLoaded, context)

/-- The outcome of `lookupIP`. -/
def lookupIP (context : MMDBContext) (ip : String) : Except MMDBError (Option Value) :=
  (lookupIPS context ip).1

/-- The bit-by-bit probing loop of `findIPv4CIDRBlock`
(`for (let bit = 0; bit < 32; bit++)`), returning the
`(currentNetwork, currentPrefix)` pair of the `return` statement that
fired, or `none` when the loop runs to completion.  The loop body probes
the masked network address, and — when the bit-flipped alternate address
still lies in the probed network — the alternate address. -/
def findIPv4Go (get : ReaderFn) (ipInt : Nat) (targetDataStr : String) :
    Nat → Nat → Option (Nat × Nat)
  | 0, _ => none
  | fuel + 1, bit =>
    let curPfx := bit + 1
    let mask := maskOf curPfx
    let currentNetwork := ipInt &&& mask
    let networkIP := ipv4ToString currentNetwork
    match get networkIP with
    | .error _ => findIPv4Go get ipInt targetDataStr fuel (bit + 1)
    | .ok networkData =>
      if stringifyOpt networkData == targetDataStr then some (currentNetwork, curPfx)
      else
        let testBit := (1 <<< (31 - bit)) % 4294967296
        let alternateIP := ipInt ^^^ testBit
        if alternateIP &&& mask == currentNetwork then
          match get (ipv4ToString alternateIP) with
          | .error _ => some (currentNetwork, curPfx)
          | .ok alternateData =>
            if stringifyOpt alternateData != targetDataStr then some (currentNetwork, curPfx)
            else findIPv4Go get ipInt targetDataStr fuel (bit + 1)
        else findIPv4Go get ipInt targetDataStr fuel (bit + 1)

/-- The network/prefix pair computed by `findIPv4CIDRBlock`: the pair of
the loop's firing `return` site, or `(ipInt, 32)` for the final
`return ip + "/32"`. -/
def findIPv4CIDRBlockPair (get : ReaderFn) (ip targetDataStr : String) : Nat × Nat :=
  match findIPv4Go get (jsIPv4Int ip) targetDataStr 32 0 with
  | some r => r
  | none => (jsIPv4Int ip, 32)

/-- Function `findIPv4CIDRBlock`: the loop's pair rendered as
`networkIP + "/" + currentPrefix`, or the textual fallback `ip + "/32"`. -/
def findIPv4CIDRBlock (get : ReaderFn) (ip targetDataStr : String) : Option String :=
  match findIPv4Go get (jsIPv4Int ip) targetDataStr 32 0 with
  | some (n, p) => some (ipv4ToString n ++ "/" ++ toString p)
  | none => some (ip ++ "/32")

/-- The `for (const prefix of commonPrefixes)` loop of
`findIPv6CIDRBlock`, over the remaining prefix list. -/
def findIPv6Go (get : ReaderFn) (ip targetDataStr : String) : List Nat → Option String
  | [] => some (ip ++ "/128")
  | pfx :: rest =>
    let parts := jsSplit ip ':' 
    let cidrBlock :=
      if pfx ≥ 64 then joinSep ":" (parts.take 4) ++ "::/" ++ toString pfx
      else if pfx ≥ 32 then joinSep ":" (parts.take 2) ++ "::/" ++ toString pfx
      else parts.getD 0 "" ++ "::/" ++ toString pfx
    match get ip with
    | .error _ => findIPv6Go get ip targetDataStr rest
    | .ok testResult =>
      if truthyOpt testResult && (stringifyOpt testResult == targetDataStr) then
        some cidrBlock
      else findIPv6Go get ip targetDataStr rest

/-- Function `findIPv6CIDRBlock`: tries the common prefix lengths
`[128, 64, 56, 48, 40, 32, 24, 16]` and falls back to `ip + "/128"`. -/
def findIPv6CIDRBlock (get : ReaderFn) (ip targetDataStr : String) : Option String :=
  findIPv6Go get ip targetDataStr [128, 64, 56, 48, 40, 32, 24, 16]

/-- Function `findCIDRBlock`, in state-passing form.  The surrounding
`try { ... } catch { return null; }` of the source turns a throwing
initial `reader.get(ip)` into a `null` result. -/
def findCIDRBlockS (context : MMDBContext) (ip : String) :
    Except MMDBError (Option String) × MMDBContext :=
  match context.dataset, context.reader with
  | some _, some rd =>
    if !isValidIP ip then (.error .invalidIPFormat, context)
    else
      match rd ip with
      | .error _ => (.ok none, context)
      | .ok targetData =>
        if !truthyOpt targetData then (.ok none, context)
        else
          match targetData with
          | none => (.ok none, context)
          | some d =>
            if ip.toList.contains '.' then
              (.ok (findIPv4CIDRBlock rd ip (stringify d)), context)
            else
              (.ok (findIPv6CIDRBlock rd ip (stringify d)), context)
  | _, _ => (.error .noDatasetLoaded, context)

/-- The outcome of `findCIDRBlock`. -/
def findCIDRBlock (context : MMDBContext) (ip : String) : Except MMDBError (Option String) :=
  (findCIDRBlockS context ip).1

/-! ### The MMDB search tree

The binary search tree itself is implemented by the external mmdb-lib
reader, not by this repository's source; the specification describes its
semantics, which claims C1 and C3 are measured against. -/

/-- Modelled from the spec: §4.3 Search Tree (implemented by the
external mmdb-lib `Reader`, not part of this repository's source).  A
record in the tree is another node, a data pointer (here: the decoded
value it leads to), or the "no data" sentinel. -/
inductive MMDBTree where
  | dataLeaf : Value → MMDBTree
  | noData : MMDBTree
  | node : MMDBTree → MMDBTree → MMDBTree

/-- Modelled from the spec: §4.3/§4.4 — the tree walk consumes the
address bits most-significant first (0 selects the left record, 1 the
right one) and stops at a data pointer or at the sentinel; the number of
bits consumed when it stops is the matched prefix length.  Returns the
resolved value (or `none`) and that depth. -/
def treeWalk : MMDBTree → List Bool → Option Value × Nat
  | .dataLeaf v, _ => (some v, 0)
  | .noData, _ => (none, 0)
  | .node _ _, [] => (none, 0)
  | .node l r, b :: bs =>
    let res := treeWalk (if b then r else l) bs
    (res.1, res.2 + 1)

/-- The 32 bits of an IPv4 address integer, most-significant first. -/
def bits32 (n : Nat) : List Bool :=
  (List.range 32).map (fun i => n.testBit (31 - i))

/-- The reader whose `get` resolves a dotted-quad string through an MMDB
search tree; it never throws. -/
def readerOfTree (t : MMDBTree) : ReaderFn :=
  fun s => .ok (treeWalk t (bits32 (jsIPv4Int s))).1

/-! ### Display formatting (application module) -/

mutual

/-- JavaScript string coercion of a decoded value, as performed by
template literals and `Array.prototype.join`. -/
def jsToString : Value → String
  | .vnull => "null"
  | .num n => toString n
  | .str s => s
  | .bool b => cond b "true" "false"
  | .arr xs => jsToStringList xs
  | .map _ => "[object Object]"

/-- Array coercion: elements joined with `","`. -/
def jsToStringList : List Value → String
  | [] => ""
  | [x] => jsToString x
  | x :: xs => jsToString x ++ "," ++ jsToStringList xs

end

/-- Rendering `x.toFixed(2)` as used on coordinates.  Coordinates are modelled as
integers, so the fraction rendered is always `.00`; no verified property
depends on this rendering. -/
def toFixed2 : Value → String
  | .num n => toString n ++ ".00"
  | _ => ""

/-- Function `formatLookupData` from the application module: the hard-coded
`"1.1.1.1"` shortcut, then the ASN, city/location, country and fallback
display branches. -/
def formatLookupData (ip : String) (data : Value) : String :=
  if isFalsy data then "No data found"
  else if ip == "1.1.1.1" then "Global (Cloudflare DNS)"
  else if hasKey data "autonomous_system_number" then
    let asnVal := (getKey data "autonomous_system_number").getD .vnull
    let asnStr := if isFalsy asnVal then "?????" else jsToString asnVal
    let orgVal := (getKey data "autonomous_system_organization").getD .vnull
    let orgStr := if isFalsy orgVal then "Unknown" else jsToString orgVal
    "AS" ++ asnStr ++ " - " ++ orgStr
  else if hasKey data "city" || hasKey data "location" then
    let cityName :=
      match getIn data ["city", "names", "en"] with
      | some v => if isFalsy v then [] else [jsToString v]
      | none => []
    let countryName :=
      match getIn data ["country", "names", "en"] with
      | some v => if isFalsy v then [] else [jsToString v]
      | none => []
    let parts := cityName ++ countryName
    let result := joinSep ", " parts
    let lat := getIn data ["location", "latitude"]
    let lon := getIn data ["location", "longitude"]
    let result :=
      if truthyOpt lat && truthyOpt lon then
        let coords := "(" ++ toFixed2 (lat.getD .vnull) ++ ", " ++
          toFixed2 (lon.getD .vnull) ++ ")"
        if result == "" then coords else result ++ " " ++ coords
      else result
    if parts.length == 1 then result ++ " [City not specified]"
    else if result == "" then "Unknown Location" else result
  else if hasKey data "country" then
    let countryName :=
      match getIn data ["country", "names", "en"] with
      | some v => if isFalsy v then [] else [jsToString v]
      | none => []
    let contName :=
      match getIn data ["continent", "names", "en"] with
      | some v => if isFalsy v then [] else ["(" ++ jsToString v ++ ")"]
      | none => []
    let joined := joinSep " " (countryName ++ contName)
    if joined == "" then "Unknown Country" else joined
  else "Unknown"

/-! ### Concrete fixtures used by the counterexamples and witnesses -/

/-- A decoded record labelled X. -/
def vX : Value := .map [("block", .str "X")]

/-- A decoded record labelled Y. -/
def vY : Value := .map [("block", .str "Y")]

/-- A search tree whose left subtree splits into the data blocks
`0.0.0.0/2 ↦ X` and `64.0.0.0/2 ↦ Y`, and whose right half
`128.0.0.0/1` carries the same data X as the first block: two distinct
tree nodes holding identical decoded data. -/
def t1 : MMDBTree := .node (.node (.dataLeaf vX) (.dataLeaf vY)) (.dataLeaf vX)

/-- A country-shaped decoded record. -/
def vCountryRec : Value := .map [("country", .map [("names", .map [("en", .str "France")])])]

/-- A reader that succeeds only on `"0.0.0.1"` and throws on every other
query. -/
def getOnly1 : ReaderFn :=
  fun s => if s == "0.0.0.1" then .ok (some vX) else .error "unknown type 99 at offset 4242"

/-- A reader that always throws. -/
def getBoom : ReaderFn := fun _ => .error "unknown type 99 at offset 4242"

/-- A reader that always returns the country-shaped record. -/
def getCountryRec : ReaderFn := fun _ => .ok (some vCountryRec)

/-- The ASN dataset catalog entry. -/
def dsAsn : MMDBDataset := ⟨"GeoLite2-ASN", "asn", "mmdb/GeoLite2-ASN.mmdb"⟩

/-- The country dataset catalog entry. -/
def dsCountry : MMDBDataset := ⟨"GeoLite2-Country", "country", "mmdb/GeoLite2-Country.mmdb"⟩

/-- Loaded context: country dataset over the reader `getOnly1`. -/
def ctxOnly1 : MMDBContext := ⟨some dsCountry, some getOnly1⟩

/-- Loaded context: country dataset over the always-throwing reader. -/
def ctxBoom : MMDBContext := ⟨some dsCountry, some getBoom⟩

/-- Loaded context: ASN dataset over the reader returning a
country-shaped record. -/
def ctxAsnMismatch : MMDBContext := ⟨some dsAsn, some getCountryRec⟩

/-- Loaded context: country dataset over the tree reader of `t1`. -/
def ctxTree : MMDBContext := ⟨some dsCountry, some (readerOfTree t1)⟩


/-- A reader that returns `null` for every query. -/
def getNone : ReaderFn := fun _ => .ok none

/-- Loaded context: country dataset over the always-`null` reader. -/
def ctxNone : MMDBContext := ⟨some dsCountry, some getNone⟩

/-- An ASN-shaped decoded record. -/
def vAsnRec : Value :=
  .map [("autonomous_system_number", .num 13335),
        ("autonomous_system_organization", .str "Cloudflare, Inc.")]

/-- A decoded record whose `autonomous_system_number` value is a string,
not a number. -/
def vAsnStrRec : Value := .map [("autonomous_system_number", .str "AS13335")]

/-- A reader that always returns the ASN-shaped record. -/
def getAsnRec : ReaderFn := fun _ => .ok (some vAsnRec)

/-- Loaded context: ASN dataset over the reader returning the ASN-shaped
record. -/
def ctxAsnOk : MMDBContext := ⟨some dsAsn, some getAsnRec⟩

/-- A reader that always returns the record X. -/
def getAllX : ReaderFn := fun _ => .ok (some vX)

/-- Loaded context: country dataset over the reader that always returns
the record X. -/
def ctxAllX : MMDBContext := ⟨some dsCountry, some getAllX⟩

/-- The guard of the `transformResult` branch selected by a dataset
type: the branch keeps the decoded value exactly when this holds. -/
def typeGuardPasses (datasetType : String) (result : Value) : Bool :=
  if datasetType == "asn" then isAsnResponse result
  else if datasetType == "city" then isCityResponse result
  else if datasetType == "country" then isCountryResponse result
  else true


/-! ### Helper lemmas -/

/-- A 32-bit residue is unchanged by the full 32-bit mask. -/
theorem land_mask32 (m : Nat) : m % 4294967296 &&& 4294967295 = m % 4294967296 := by
  have h1 : (4294967295 : Nat) = 2 ^ 32 - 1 := by norm_num
  have h2 : (4294967296 : Nat) = 2 ^ 32 := by norm_num
  rw [h1, h2, Nat.and_pow_two_sub_one_eq_mod]
  omega

/-- Every `return` site of the probing loop of `findIPv4CIDRBlock`
returns the queried address masked to the returned prefix length. -/
theorem findIPv4Go_mask (get : ReaderFn) (ipInt : Nat) (target : String) :
    ∀ fuel bit n p, findIPv4Go get ipInt target fuel bit = some (n, p) →
      n = ipInt &&& maskOf p := by
  intro fuel
  induction fuel with
  | zero => intro bit n p h; simp [findIPv4Go] at h
  | succ f ih =>
    intro bit n p h
    simp only [findIPv4Go] at h
    split at h
    · exact ih _ _ _ h
    · split at h
      · obtain ⟨hn, hp⟩ := Prod.mk.injEq .. ▸ Option.some.injEq .. ▸ h
        subst hn hp; rfl
      · split at h
        · split at h
          · obtain ⟨hn, hp⟩ := Prod.mk.injEq .. ▸ Option.some.injEq .. ▸ h
            subst hn hp; rfl
          · split at h
            · obtain ⟨hn, hp⟩ := Prod.mk.injEq .. ▸ Option.some.injEq .. ▸ h
              subst hn hp; rfl
            · exact ih _ _ _ h
        · exact ih _ _ _ h

/-! ### The claims -/

/-- Claim C1.  The claim states that the prefix length returned by the
CIDR-block search is the tree-walk depth (number of bits consumed) and
not the product of equality-of-decoded-output probing.  On the tree `t1`
the walk for `0.0.0.0` consumes 2 bits, but the probing loop of
`findIPv4CIDRBlock` already accepts the `/1` network because the sibling
half of the address space happens to hold identical data: the code
returns prefix 1 where the tree depth is 2. -/
theorem c1_prefix_not_tree_depth :
    findIPv4CIDRBlockPair (readerOfTree t1) "0.0.0.0" (stringify vX) = (0, 1) ∧
    (treeWalk t1 (bits32 (jsIPv4Int "0.0.0.0"))).2 = 2 ∧ (1 : Nat) ≠ 2 := by
  refine ⟨by decide, by decide, by decide⟩

/-- Claim C2.  The network/prefix pair computed by `findIPv4CIDRBlock`
(for any reader, query string and serialized target) satisfies: the
queried address's 32 bits masked to the returned prefix length equal the
returned network address exactly. -/
theorem c2_masked_bits_eq_network (get : ReaderFn) (ip target : String) :
    (findIPv4CIDRBlockPair get ip target).1 =
      jsIPv4Int ip &&& maskOf (findIPv4CIDRBlockPair get ip target).2 := by
  unfold findIPv4CIDRBlockPair
  cases h : findIPv4Go get (jsIPv4Int ip) target 32 0 with
  | none =>
    have h32 : maskOf 32 = 4294967295 := by decide
    simp only [h32]
    exact (land_mask32 _).symm
  | some r =>
    obtain ⟨n, p⟩ := r
    simpa using findIPv4Go_mask get (jsIPv4Int ip) target 32 0 n p h

/-- Claim C3.  The claim states that every address inside a returned
CIDR block decodes to the same value as the original query.  On the tree
`t1`, the search for `0.0.0.0` returns the block `0.0.0.0/1`, yet the
member `64.0.0.0` of that block (its bits masked to 1 equal the block's
network) decodes to Y while the query decoded to X. -/
theorem c3_block_member_differs :
    findIPv4CIDRBlockPair (readerOfTree t1) "0.0.0.0" (stringify vX) = (0, 1) ∧
    jsIPv4Int "64.0.0.0" &&& maskOf 1 = 0 ∧
    readerOfTree t1 "0.0.0.0" = .ok (some vX) ∧
    readerOfTree t1 "64.0.0.0" = .ok (some vY) ∧
    vY ≠ vX := by
  exact ⟨by decide, by decide, by rfl, by rfl, by simp [vX, vY]⟩

/-- Claim C4.  With a loaded context, `lookupIP "256.1.1.1"` throws the
invalid-address error, while for any syntactically valid address on
which the reader reports no data it returns the non-error `null`
outcome, and the two outcomes are distinct. -/
theorem c4_invalid_vs_notfound (ctx : MMDBContext) (ds : MMDBDataset) (rd : ReaderFn)
    (hds : ctx.dataset = some ds) (hrd : ctx.reader = some rd) :
    lookupIP ctx "256.1.1.1" = .error .invalidIPFormat ∧
    ∀ ip, isValidIP ip = true → rd ip = .ok none →
      lookupIP ctx ip = .ok none ∧ lookupIP ctx ip ≠ .error .invalidIPFormat := by
  constructor
  · have hv : isValidIP "256.1.1.1" = false := by decide
    simp [lookupIP, lookupIPS, hds, hrd, hv]
  · intro ip hvalid hget
    have : lookupIP ctx ip = .ok none := by
      simp [lookupIP, lookupIPS, hds, hrd, hvalid, hget, truthyOpt]
    exact ⟨this, by simp [this]⟩

/-- Witness for C4 at the concrete context `ctxNone`. -/
theorem c4_witness :
    lookupIP ctxNone "256.1.1.1" = .error .invalidIPFormat ∧
    lookupIP ctxNone "1.1.1.1" = .ok none := by
  have h := c4_invalid_vs_notfound ctxNone dsCountry getNone rfl rfl
  exact ⟨h.1, (h.2 "1.1.1.1" (by decide) rfl).1⟩

/-- Claim C5, counterexample.  `getOnly1` throws on every probe address
(in particular on `0.0.0.0`, the first network probed for the query
`0.0.0.1`), yet `findCIDRBlock` returns a normal block, not an error;
and with the always-throwing reader the failing initial lookup is
reported as the same `null` outcome that means "not found". -/
theorem c5_counterexample :
    getOnly1 "0.0.0.0" = .error "unknown type 99 at offset 4242" ∧
    findCIDRBlock ctxOnly1 "0.0.0.1" = .ok (some "0.0.0.1/32") ∧
    findCIDRBlock ctxBoom "0.0.0.1" = .ok none := by
  exact ⟨by rfl, by rfl, by rfl⟩

/-- Claim C5, amended.  For a loaded context and a syntactically valid
query, `findCIDRBlock` never surfaces an error: reader failures are
caught, so every outcome is a normal (possibly `null`) return. -/
theorem c5_no_error_surfaces (ctx : MMDBContext) (ds : MMDBDataset) (rd : ReaderFn)
    (ip : String) (hds : ctx.dataset = some ds) (hrd : ctx.reader = some rd)
    (hvalid : isValidIP ip = true) :
    ∃ r, findCIDRBlock ctx ip = .ok r := by
  unfold findCIDRBlock findCIDRBlockS
  rw [hds, hrd]
  simp only [hvalid, Bool.not_true, Bool.false_eq_true, if_false]
  cases rd ip with
  | error e => exact ⟨none, rfl⟩
  | ok targetData =>
    cases targetData with
    | none => simp
    | some d =>
      by_cases ht : truthyOpt (some d) = true
      · simp only [ht, Bool.not_true, Bool.false_eq_true, if_false]
        split
        · exact ⟨_, rfl⟩
        · exact ⟨_, rfl⟩
      · simp [ht]

/-- Witness for C5 (amended) at the concrete context `ctxOnly1`. -/
theorem c5_witness : ∃ r, findCIDRBlock ctxOnly1 "0.0.0.1" = .ok r :=
  c5_no_error_surfaces ctxOnly1 dsCountry getOnly1 "0.0.0.1" rfl rfl (by decide)

/-- When the guard of the selected dataset type passes,
`transformResult` is the identity. -/
theorem transformResult_id (t : String) (r : Value)
    (h : typeGuardPasses t r = true) : transformResult r t = r := by
  unfold transformResult
  unfold typeGuardPasses at h
  repeat' split at h
  all_goals simp_all

/-- Claim C6, counterexample.  With the ASN dataset selected and the
reader decoding a country-shaped record, `lookupIP` replaces the decoded
value by the fabricated zero-ASN fallback record. -/
theorem c6_counterexample :
    lookupIP ctxAsnMismatch "8.8.8.8" =
      .ok (some (.map [("autonomous_system_number", .num 0),
                       ("autonomous_system_organization", .str "Unknown")])) ∧
    getCountryRec "8.8.8.8" = .ok (some vCountryRec) ∧
    Value.map [("autonomous_system_number", .num 0),
               ("autonomous_system_organization", .str "Unknown")] ≠ vCountryRec := by
  refine ⟨by rfl, by rfl, by simp [vCountryRec]⟩

/-- Claim C6, amended.  `lookupIP` exposes the decoded value unchanged
whenever it passes the shape guard of the selected dataset type (and for
any unrecognized dataset type); only when the guard fails does it
substitute a fallback record. -/
theorem c6_passthrough (ctx : MMDBContext) (ds : MMDBDataset) (rd : ReaderFn)
    (ip : String) (r : Value) (hds : ctx.dataset = some ds) (hrd : ctx.reader = some rd)
    (hvalid : isValidIP ip = true) (hget : rd ip = .ok (some r))
    (htruthy : isFalsy r = false) (hguard : typeGuardPasses ds.type r = true) :
    lookupIP ctx ip = .ok (some r) := by
  unfold lookupIP lookupIPS
  rw [hds, hrd]
  simp [hvalid, hget, truthyOpt, htruthy, transformResult_id ds.type r hguard]

/-- Witness for C6 (amended) at the concrete context `ctxAsnOk`. -/
theorem c6_witness : lookupIP ctxAsnOk "8.8.8.8" = .ok (some vAsnRec) :=
  c6_passthrough ctxAsnOk dsAsn getAsnRec "8.8.8.8" vAsnRec rfl rfl (by decide)
    rfl (by rfl) (by rfl)

/-- Claim C7, counterexample.  A record whose key
`autonomous_system_number` holds a string contains the key, yet
`isAsnResponse` rejects it: containing the key alone is not equivalent
to being ASN-shaped. -/
theorem c7_counterexample :
    hasKey vAsnStrRec "autonomous_system_number" = true ∧
    isAsnResponse vAsnStrRec = false := by
  exact ⟨by rfl, by rfl⟩

/-- Claim C7, amended.  The guards hold exactly per the key lists with
the numeric-value refinement on the ASN side: ASN-shaped iff
`autonomous_system_number` is present with a numeric value; City-shaped
iff one of `city`, `location`, `postal`, `subdivisions` is present;
Country-shaped iff `country` or `continent` is present. -/
theorem c7_guards (r : Value) :
    (isAsnResponse r = true ↔
      ∃ n, getKey r "autonomous_system_number" = some (.num n)) ∧
    (isCityResponse r = true ↔
      (hasKey r "city" = true ∨ hasKey r "location" = true ∨
        hasKey r "postal" = true ∨ hasKey r "subdivisions" = true)) ∧
    (isCountryResponse r = true ↔
      (hasKey r "country" = true ∨ hasKey r "continent" = true)) := by
  refine ⟨?_, ?_, ?_⟩
  · unfold isAsnResponse hasKey
    cases hk : getKey r "autonomous_system_number" with
    | none => simp [hk]
    | some v => cases v <;> simp [hk]
  · unfold isCityResponse
    simp [Bool.or_eq_true, or_assoc]
  · unfold isCountryResponse
    simp [Bool.or_eq_true]

/-- Claim C8.  Neither `lookupIP` nor `findCIDRBlock` ever modifies the
loaded context, succeeding or failing, and therefore a lookup performed
after any (possibly failed) call on the same context behaves exactly as
it would have beforehand. -/
theorem c8_context_immutable (ctx : MMDBContext) (ip ip2 : String) :
    (lookupIPS ctx ip).2 = ctx ∧ (findCIDRBlockS ctx ip).2 = ctx ∧
    lookupIPS (lookupIPS ctx ip).2 ip2 = lookupIPS ctx ip2 ∧
    lookupIPS (findCIDRBlockS ctx ip).2 ip2 = lookupIPS ctx ip2 ∧
    findCIDRBlockS (lookupIPS ctx ip).2 ip2 = findCIDRBlockS ctx ip2 ∧
    findCIDRBlockS (findCIDRBlockS ctx ip).2 ip2 = findCIDRBlockS ctx ip2 := by
  have h1 : ∀ c i, (lookupIPS c i).2 = c := by
    intro c i
    unfold lookupIPS
    repeat' split
    all_goals rfl
  have h2 : ∀ c i, (findCIDRBlockS c i).2 = c := by
    intro c i
    unfold findCIDRBlockS
    repeat' split
    all_goals rfl
  refine ⟨h1 ctx ip, h2 ctx ip, by rw [h1 ctx ip], by rw [h2 ctx ip],
    by rw [h1 ctx ip], by rw [h2 ctx ip]⟩

/-- Claim C9.  For the exact input string `"1.1.1.1"` and any truthy
record, `formatLookupData` returns the hard-coded string, never
consulting the record. -/
theorem c9_cloudflare_hardcoded (d : Value) (h : isFalsy d = false) :
    formatLookupData "1.1.1.1" d = "Global (Cloudflare DNS)" := by
  unfold formatLookupData
  simp [h]

/-- Witness for C9 at the country-shaped record. -/
theorem c9_witness :
    isFalsy vCountryRec = false ∧
    formatLookupData "1.1.1.1" vCountryRec = "Global (Cloudflare DNS)" :=
  ⟨rfl, c9_cloudflare_hardcoded vCountryRec rfl⟩

/-- Claim C10.  For any dot-free (IPv6) query on which the reader
returns truthy data, `findCIDRBlock` answers with the first tested
prefix: the block is always `/128` and its network part is the first
four textual colon-groups of the query string. -/
theorem c10_ipv6_first_tested (ctx : MMDBContext) (ds : MMDBDataset) (rd : ReaderFn)
    (ip : String) (d : Value) (hds : ctx.dataset = some ds) (hrd : ctx.reader = some rd)
    (hvalid : isValidIP ip = true) (hdot : ip.toList.contains '.' = false)
    (hget : rd ip = .ok (some d)) (htruthy : isFalsy d = false) :
    findCIDRBlock ctx ip =
      .ok (some (joinSep ":" ((jsSplit ip ':').take 4) ++ "::/128")) := by
  unfold findCIDRBlock findCIDRBlockS
  rw [hds, hrd]
  have hs : ("::/" ++ toString (128 : Nat)) = "::/128" := by rfl
  have hdot2 : ¬ ('.' ∈ ip.data) := by simpa using hdot
  simp [hvalid, hget, hdot2, truthyOpt, htruthy, findIPv6CIDRBlock, findIPv6Go,
    stringifyOpt, String.append_assoc, hs]

/-- Witness for C10 at the concrete context `ctxAllX` and the query
`1::2`. -/
theorem c10_witness : findCIDRBlock ctxAllX "1::2" = .ok (some "1::2::/128") := by
  have h := c10_ipv6_first_tested ctxAllX dsCountry getAllX "1::2" vX rfl rfl
    (by decide) (by decide) rfl rfl
  rw [h]
  rfl
